import Mathlib

set_option maxHeartbeats 1000000

/-! Shallow embedding of `src/hass_mqtt/fan.rs`: the fan entity adapter of a
smart-device-to-MQTT bridge.  Pure logic is translated to Lean functions; the
effectful parts (MQTT publishes, device-registry mutations, transport
dispatches) are made explicit as result records carrying the list of published
messages, the list of registry mutations and the list of transport dispatch
attempts.  Collaborator types that live outside the excerpt (device registry,
work-mode table, BLE speed code, value converter) are modelled from the
specification, as indicated by their doc comments. -/

/-- Minimal JSON value standing in for `serde_json::Value`; the embedded code
paths need only integers and objects (no floats occur on them). -/
inductive JVal where
  | null
  | bool (b : Bool)
  | int (n : Int)
  | str (s : String)
  | arr (elems : List JVal)
  | obj (fields : List (String × JVal))

/-- `serde_json::Value::as_i64`: the numeric reading of a JSON value. -/
def JVal.as_i64 : JVal → Option Int
  | .int n => some n
  | _ => none

/-- Object-field lookup inside a JSON value. -/
def JVal.getKey : JVal → String → Option JVal
  | .obj fields, k => (fields.find? (fun kv => kv.fst == k)).map (fun kv => kv.snd)
  | _, _ => none

/-- Modelled from the spec: the JSON-pointer-style lookup used as secondary
source for the observed work mode (`serde_json` is outside the excerpt).  Only
object-key segments are supported, which is all the one embedded call site
(`"/value/workMode"`, i.e. `["value", "workMode"]`) uses. -/
def JVal.pointer : JVal → List String → Option JVal
  | v, [] => some v
  | v, k :: ks =>
    match v.getKey k with
    | some inner => inner.pointer ks
    | none => none

/-- Modelled from the spec: one Mode Table entry `{name, nativeValue,
defaultSubValue}` (`crate::hass_mqtt::work_mode` is outside the excerpt).
`value` is kept JSON-encoded because the source reads it with `as_i64`. -/
structure WorkMode where
  name : String
  value : JVal
  defaultValue : Int

/-- `WorkMode::default_value`: the mode's default sub-parameter value. -/
def WorkMode.default_value (m : WorkMode) : Int := m.defaultValue

/-- Modelled from the spec: the Mode Table resolved from a device's work-mode
capability descriptor. -/
structure ParsedWorkMode where
  modes : List WorkMode

/-- Modelled from the spec: `modeByName` is an exact, case-sensitive string
match over the Mode Table. -/
def ParsedWorkMode.mode_by_name (wm : ParsedWorkMode) (name : String) : Option WorkMode :=
  wm.modes.find? (fun m => m.name == name)

/-- Modelled from the spec: `modeForValue` matches an observed JSON value
against each mode's native value using loose numeric equality across
encodings (both sides read as integers and compared). -/
def ParsedWorkMode.mode_for_value (wm : ParsedWorkMode) (v : JVal) : Option WorkMode :=
  wm.modes.find? (fun m =>
    match m.value.as_i64, v.as_i64 with
    | some a, some b => a == b
    | _, _ => false)

/-- `ParsedWorkMode::get_mode_names`. -/
def ParsedWorkMode.get_mode_names (wm : ParsedWorkMode) : List String :=
  wm.modes.map (fun m => m.name)

/-- Cached on/off portion of the Device Runtime State. -/
structure DeviceState where
  «on» : Bool

/-- `platform_api::IntegerRange` as used by the excerpt (only `min` and `max`
are read; further fields are ignored via `..` in the source pattern). -/
structure IntegerRange where
  min : Int
  max : Int

/-- `platform_api::DeviceParameters` as matched by the excerpt: an integer
range with a unit, or anything else (the source wildcard arm). -/
inductive DeviceParameters where
  | integer (range : IntegerRange) (unit : Option String)
  | other

/-- One capability on the HTTP device descriptor. -/
structure HttpCapability where
  inst : String
  parameters : Option DeviceParameters

/-- The HTTP device descriptor (`device.http_device_info`). -/
structure HttpDeviceInfo where
  capabilities : List HttpCapability

/-- `HttpDeviceInfo::capability_by_instance`. -/
def capability_by_instance (info : HttpDeviceInfo) (inst : String) : Option HttpCapability :=
  info.capabilities.find? (fun c => c.inst == inst)

/-- One entry of the raw capability-state blob (`device.get_state_capability_by_instance`). -/
structure StateCapability where
  inst : String
  state : JVal

/-- Modelled from the spec: the Device Runtime State of §3 plus the device
metadata read by the excerpt (`crate::service::device::Device` is outside the
excerpt).  `target_speed_percent` is the cached target-speed field
(`targetSpeedPercent` in the spec): it is what `notify_state` reads back and
what `set_target_speed` writes. -/
structure ServiceDevice where
  id : String
  sku : String
  device_state : Option DeviceState
  target_speed_percent : Option Nat
  fan_work_mode : Option Int
  work_mode_capability : Option (List WorkMode)
  state_capabilities : List StateCapability
  http_device_info : Option HttpDeviceInfo
  pollable_via_iot : Bool
  iot_api_supported : Bool

/-- Modelled from the spec: `ParsedWorkMode::with_device` resolves the Mode
Table from the device, failing with `NoWorkModeCapability` when the device
exposes no enumerated work-mode capability (§4.1). -/
def ParsedWorkMode.with_device (device : ServiceDevice) : Except String ParsedWorkMode :=
  match device.work_mode_capability with
  | some ms => .ok ⟨ms⟩
  | none => .error "NoWorkModeCapability"

/-- `Device::get_state_capability_by_instance`. -/
def get_state_capability_by_instance (device : ServiceDevice) (inst : String) :
    Option StateCapability :=
  device.state_capabilities.find? (fun c => c.inst == inst)

/-- The device registry: the externally-owned collection of Device Runtime
States, modelled as the list of devices. -/
abbrev World := List ServiceDevice

/-- Modelled from the spec (§6): `deviceById` on the registry. -/
def device_by_id (w : World) (id : String) : Option ServiceDevice :=
  w.find? (fun d => d.id == id)

/-- The per-device effect of `set_target_speed`: the device addressed by
`(sku, id)` gets its cached target speed overwritten, others are untouched. -/
def apply_target_speed (sku id : String) (value : Nat) (d : ServiceDevice) : ServiceDevice :=
  if d.sku == sku && d.id == id then
    { d with target_speed_percent := some value }
  else d

/-- Modelled from the spec (§6): `device_mut(sku, id).set_target_speed(v)`,
the scoped optimistic mutation of the cached target speed. -/
def set_target_speed (w : World) (sku id : String) (value : Nat) : World :=
  w.map (apply_target_speed sku id value)

/-- Modelled from the spec (§1): topic-naming/ID-sanitization helpers are out
of scope, so `topic_safe_id` is the identity on the device id. -/
def topic_safe_id (device : ServiceDevice) : String := device.id

/-- The speed-range extraction of `Fan::new` (lines 117-132): the advertised
`(min as u8, max as u8)` of the HTTP `"fan"` capability when it is an integer
range in `"unit.percent"`, and `(none, none)` otherwise. -/
def advertised_speed_range (device : ServiceDevice) : Option Nat × Option Nat :=
  match device.http_device_info with
  | none => (none, none)
  | some info =>
    match capability_by_instance info "fan" with
    | none => (none, none)
    | some cap =>
      match cap.parameters with
      | some (.integer range unit) =>
        if unit == some "unit.percent" then
          ((some ((range.min % 256).toNat)), (some ((range.max % 256).toNat)))
        else (none, none)
      | _ => (none, none)

/-- The fan entity: the fields of `Fan` and of its flattened `FanConfig` that
the embedded logic reads (topic strings, advertised range, mode list). -/
structure Fan where
  device_id : String
  command_topic : String
  state_topic : String
  percentage_command_topic : String
  percentage_state_topic : String
  preset_mode_command_topic : String
  preset_mode_state_topic : String
  speed_range_min : Option Nat
  speed_range_max : Option Nat
  preset_modes : List String
  optimistic : Bool

/-- `Fan::new`: builds the entity config from the device, computing the topic
strings, the advertised speed range and the mode-name list.
`iot_client_available` stands for `state.get_iot_client().await.is_some()`. -/
def Fan.new (device : ServiceDevice) (iot_client_available : Bool) : Fan :=
  let use_iot := device.iot_api_supported && iot_client_available
  let optimistic := !use_iot
  let sr := advertised_speed_range device
  let modes :=
    match ParsedWorkMode.with_device device with
    | .ok wm => wm.get_mode_names
    | .error _ => []
  { device_id := device.id
    command_topic := "gv2mqtt/switch/" ++ topic_safe_id device ++ "/command/powerSwitch"
    state_topic := "gv2mqtt/fan/" ++ topic_safe_id device ++ "/state"
    percentage_command_topic := "gv2mqtt/fan/" ++ topic_safe_id device ++ "/set-speed"
    percentage_state_topic := "gv2mqtt/fan/" ++ topic_safe_id device ++ "/notify-speed"
    preset_mode_command_topic := "gv2mqtt/fan/" ++ topic_safe_id device ++ "/set-mode"
    preset_mode_state_topic := "gv2mqtt/fan/" ++ topic_safe_id device ++ "/notify-mode"
    speed_range_min := sr.fst
    speed_range_max := sr.snd
    preset_modes := modes
    optimistic := optimistic }

/-- Termination status of an embedded operation: normal return, an error
return (`anyhow::Result::Err`), or a panic (`expect`). -/
inductive Outcome where
  | ok
  | error (msg : String)
  | panicked (msg : String)
deriving DecidableEq, Repr

/-- Result of `notify_state`: termination status, the `(topic, payload)`
messages published, the `set_target_speed` mutations requested (as
`(sku, id, value)` events) and the registry after them. -/
structure NotifyResult where
  outcome : Outcome
  pubs : List (String × String)
  sets : List (String × String × Nat)
  world : World

/-- Lines 195-208 of `notify_state`: the on/off payload; a missing device
state publishes `"OFF"`. -/
def Fan.on_off_payload (device : ServiceDevice) : String :=
  match device.device_state with
  | some device_state => if device_state.«on» then "ON" else "OFF"
  | none => "OFF"

/-- Lines 210-233 of `notify_state`: the percent-speed publication.  When a
cached target speed exists it is published; otherwise the guess
`speed_range_min.unwrap_or(0)` is published and latched into the registry via
`set_target_speed`.  Returns the published message, the mutation events and
the resulting registry. -/
def Fan.speed_section (f : Fan) (device : ServiceDevice) (w : World) :
    (String × String) × List (String × String × Nat) × World :=
  match device.target_speed_percent with
  | some speed => ((f.percentage_state_topic, toString speed), [], w)
  | none =>
    let guessed_value := f.speed_range_min.getD 0
    ((f.percentage_state_topic, toString guessed_value),
     [(device.sku, device.id, guessed_value)],
     set_target_speed w device.sku device.id guessed_value)

/-- Lines 235-257 of `notify_state`: the work-mode publication.  With an
observed native value, decode failures are silently skipped (`if let Ok`);
without one, the Mode Table resolution error propagates (`?`) and otherwise
the raw-blob pointer lookup is tried, silently skipping on failure. -/
def Fan.mode_section (f : Fan) (device : ServiceDevice) :
    Outcome × List (String × String) :=
  match device.fan_work_mode with
  | some mode_value =>
    match ParsedWorkMode.with_device device with
    | .ok work_mode =>
      match work_mode.mode_for_value (JVal.int mode_value) with
      | some mode => (.ok, [(f.preset_mode_state_topic, mode.name)])
      | none => (.ok, [])
    | .error _ => (.ok, [])
  | none =>
    match ParsedWorkMode.with_device device with
    | .error e => (.error e, [])
    | .ok work_modes =>
      match get_state_capability_by_instance device "workMode" with
      | some cap =>
        match cap.state.pointer ["value", "workMode"] with
        | some mode_num =>
          match work_modes.mode_for_value mode_num with
          | some mode => (.ok, [(f.preset_mode_state_topic, mode.name)])
          | none => (.ok, [])
        | none => (.ok, [])
      | none => (.ok, [])

/-- `Fan::notify_state` (lines 188-258): fetch the device snapshot (panicking
via `expect("device to exist")` when absent), publish on/off state, then the
percent speed (latching a guess when uncached), then the work mode.  MQTT
publishing itself is modelled as infallible accumulation of messages. -/
def Fan.notify_state (f : Fan) (w : World) : NotifyResult :=
  match device_by_id w f.device_id with
  | none => ⟨.panicked "device to exist", [], [], w⟩
  | some device =>
    let sp := f.speed_section device w
    let mo := f.mode_section device
    ⟨mo.fst,
     (f.state_topic, Fan.on_off_payload device) :: sp.fst :: mo.snd,
     sp.snd.fst,
     sp.snd.snd⟩

/-- Modelled from the spec: `crate::ble::TargetSpeed` is outside the excerpt;
§4.5 only requires the percent to be converted into a device-native speed
code, so the code is modelled as carrying the (u8) percent it was built
from. -/
structure TargetSpeed where
  raw : Nat

/-- `TargetSpeed::from_percent` on the already-truncated u8 percent. -/
def TargetSpeed.from_percent (percent : Nat) : TargetSpeed := ⟨percent⟩

/-- `TargetSpeed::into_inner`. -/
def TargetSpeed.into_inner (t : TargetSpeed) : Nat := t.raw

/-- Modelled from the spec (§6): the environment a command handler runs in:
the registry plus the per-call transport availability and the outcomes the
external transport collaborators would return. -/
structure Env where
  devices : List ServiceDevice
  iot_client_available : Bool
  device_control_ok : Bool
  fan_set_parameter_ok : Bool

/-- Modelled from the spec (§6): `resolveDeviceForControl(id)` fails with
`NotFound` when the id is not in the registry. -/
def resolve_device_for_control (env : Env) (id : String) : Except String ServiceDevice :=
  match device_by_id env.devices id with
  | some d => .ok d
  | none => .error "device not found"

/-- A transport dispatch attempt: direct HTTP capability control
(`state.device_control`) with its payload, or a work-mode parameter dispatch
(`state.fan_set_parameter`) with mode number and sub-value. -/
inductive Dispatch where
  | device_control (capInst : String) (value : Int)
  | fan_set_parameter (mode_num : Int) (value : Int)
deriving DecidableEq, Repr

/-- Result of a command handler: termination status, the dispatch attempts
made, and the `set_target_speed` mutation events requested. -/
structure HandlerResult where
  outcome : Outcome
  dispatches : List Dispatch
  sets : List (String × String × Nat)

/-- Lines 298-300 of `mqtt_fan_set_speed` as an expression: the HTTP `"fan"`
capability is available for direct percent control only when the IoT path is
not used and the HTTP descriptor carries that capability; any failed check
falls through. -/
def secondary_percent_cap (use_iot : Bool) (device : ServiceDevice) : Option HttpCapability :=
  if use_iot then none
  else device.http_device_info.bind (fun info => capability_by_instance info "fan")

/-- `mqtt_fan_set_work_mode` (lines 261-285): resolve the device, resolve the
Mode Table, look the payload mode name up exactly, require a numeric native
value, and dispatch it with the mode's default sub-value. -/
def mqtt_fan_set_work_mode (mode : String) (id : String) (env : Env) : HandlerResult :=
  match resolve_device_for_control env id with
  | .error e => ⟨.error e, [], []⟩
  | .ok device =>
    match ParsedWorkMode.with_device device with
    | .error e => ⟨.error e, [], []⟩
    | .ok work_modes =>
      match work_modes.mode_by_name mode with
      | none => ⟨.error ("mode " ++ mode ++ " not found"), [], []⟩
      | some work_mode =>
        match work_mode.value.as_i64 with
        | none => ⟨.error "expected workMode to be a number", [], []⟩
        | some mode_num =>
          let value := work_mode.default_value
          if env.fan_set_parameter_ok then
            ⟨.ok, [.fan_set_parameter mode_num value], []⟩
          else
            ⟨.error "ControlError", [.fan_set_parameter mode_num value], []⟩

/-- `mqtt_fan_set_speed` (lines 287-341): resolve the device; when the IoT
path is unusable and the HTTP descriptor has a `"fan"` capability, control it
directly with the raw percent and, only after a successful dispatch, latch
`percent as u8` as the optimistic target speed and return.  Otherwise fall
back to dispatching the `"Auto"` work mode with the percent converted to a
native speed code, failing before any dispatch when `"Auto"` is absent. -/
def mqtt_fan_set_speed (percent : Int) (id : String) (env : Env) : HandlerResult :=
  match resolve_device_for_control env id with
  | .error e => ⟨.error e, [], []⟩
  | .ok device =>
    let use_iot := device.pollable_via_iot && env.iot_client_available
    match secondary_percent_cap use_iot device with
    | some cap =>
      if env.device_control_ok then
        ⟨.ok, [.device_control cap.inst percent],
         [(device.sku, device.id, (percent % 256).toNat)]⟩
      else
        ⟨.error "ControlError", [.device_control cap.inst percent], []⟩
    | none =>
      match ParsedWorkMode.with_device device with
      | .error e => ⟨.error e, [], []⟩
      | .ok work_modes =>
        match work_modes.mode_by_name "Auto" with
        | none => ⟨.error "mode Auto not found", [], []⟩
        | some work_mode =>
          match work_mode.value.as_i64 with
          | none => ⟨.error "expected workMode to be a number", [], []⟩
          | some mode_num =>
            let value := TargetSpeed.from_percent (percent % 256).toNat
            if env.fan_set_parameter_ok then
              ⟨.ok, [.fan_set_parameter mode_num (Int.ofNat value.into_inner)], []⟩
            else
              ⟨.error "ControlError", [.fan_set_parameter mode_num (Int.ofNat value.into_inner)], []⟩

/-- Modelled from the spec (§4.2): the Value Converter `fromPercent(p, range)`
maps a percent onto the advertised range by proportional scaling with
round-half-up, so that 0 maps to `min` and 100 maps to `max`
(`crate::ble::TargetSpeed` carries no range in the excerpt's call, so the
converter itself is outside the excerpt). -/
def fromPercent (p minV maxV : Nat) : Nat :=
  minV + (p * (maxV - minV) + 50) / 100

/-- Modelled from the spec (§4.2): the Value Converter `toPercent(code,
range)`, the proportional inverse with round-half-up. -/
def toPercent (code minV maxV : Nat) : Nat :=
  ((code - minV) * 200 + (maxV - minV)) / (2 * (maxV - minV))


/-! Shared lemmas about the registry. -/

theorem apply_target_speed_self (d : ServiceDevice) (g : Nat) :
    apply_target_speed d.sku d.id g d = { d with target_speed_percent := some g } := by
  simp [apply_target_speed]

theorem apply_target_speed_other (sku id : String) (g : Nat) (x : ServiceDevice)
    (h : (x.id == id) = false) : apply_target_speed sku id g x = x := by
  simp only [apply_target_speed]
  rw [h]
  simp

theorem apply_target_speed_id (sku id : String) (g : Nat) (d : ServiceDevice) :
    (apply_target_speed sku id g d).id = d.id := by
  unfold apply_target_speed
  split <;> rfl

/-- The scoped `set_target_speed` mutation changes only the
`target_speed_percent` field of the addressed device, so a registry lookup by
id afterwards finds the updated device. -/
theorem device_by_id_set_target_speed (w : World) (id : String) (d : ServiceDevice) (g : Nat)
    (hd : device_by_id w id = some d) :
    device_by_id (set_target_speed w d.sku d.id g) id =
      some { d with target_speed_percent := some g } := by
  induction w with
  | nil => simp [device_by_id] at hd
  | cons a tl ih =>
    unfold device_by_id at hd ⊢
    unfold set_target_speed
    rw [List.map_cons]
    by_cases h : (a.id == id) = true
    · rw [@List.find?_cons_of_pos _ (fun x : ServiceDevice => x.id == id) a tl h] at hd
      injection hd with ha
      subst ha
      rw [apply_target_speed_self]
      exact @List.find?_cons_of_pos _ (fun x : ServiceDevice => x.id == id)
        { a with target_speed_percent := some g }
        (List.map (apply_target_speed a.sku a.id g) tl) h
    · rw [@List.find?_cons_of_neg _ (fun x : ServiceDevice => x.id == id) a tl h] at hd
      have hdid : (d.id == id) = true := by simpa using List.find?_some hd
      have hne : (a.id == d.id) = false := by
        rw [eq_of_beq hdid]
        exact eq_false_of_ne_true h
      rw [apply_target_speed_other d.sku d.id g a hne]
      rw [@List.find?_cons_of_neg _ (fun x : ServiceDevice => x.id == id) a
        (List.map (apply_target_speed d.sku d.id g) tl) h]
      exact ih hd

/-- C1: with no cached target speed, `notify_state` publishes a guessed speed
equal to the advertised range minimum (or 0 without a range), persists that
guess into the Device Runtime State, and a second call with no intervening
change publishes the same latched value from the cache without re-guessing or
mutating the registry again. -/
theorem fan_notify_state_latches_guessed_speed
    (dev0 : ServiceDevice) (avail : Bool) (f : Fan) (w : World) (d : ServiceDevice) (g : Nat)
    (hf : f = Fan.new dev0 avail)
    (hd : device_by_id w f.device_id = some d)
    (hnone : d.target_speed_percent = none)
    (hg : g = (advertised_speed_range dev0).fst.getD 0) :
    (f.percentage_state_topic, toString g) ∈ (f.notify_state w).pubs ∧
    (f.notify_state w).sets = [(d.sku, d.id, g)] ∧
    (∃ d2, device_by_id (f.notify_state w).world f.device_id = some d2 ∧
       d2.target_speed_percent = some g) ∧
    (f.percentage_state_topic, toString g) ∈ (f.notify_state ((f.notify_state w).world)).pubs ∧
    (f.notify_state ((f.notify_state w).world)).sets = [] ∧
    (f.notify_state ((f.notify_state w).world)).world = (f.notify_state w).world := by
  have hmin : f.speed_range_min = (advertised_speed_range dev0).fst := by
    rw [hf]
    rfl
  have hg2 : f.speed_range_min.getD 0 = g := by rw [hmin, hg]
  have hr1 : f.notify_state w =
      ⟨(f.mode_section d).fst,
       (f.state_topic, Fan.on_off_payload d) :: (f.percentage_state_topic, toString g) ::
         (f.mode_section d).snd,
       [(d.sku, d.id, g)],
       set_target_speed w d.sku d.id g⟩ := by
    unfold Fan.notify_state Fan.speed_section
    simp only [hd, hnone, hg2]
  have hlook : device_by_id (set_target_speed w d.sku d.id g) f.device_id =
      some { d with target_speed_percent := some g } :=
    device_by_id_set_target_speed w f.device_id d g hd
  have hr2 : f.notify_state (set_target_speed w d.sku d.id g) =
      ⟨(f.mode_section { d with target_speed_percent := some g }).fst,
       (f.state_topic, Fan.on_off_payload { d with target_speed_percent := some g }) ::
         (f.percentage_state_topic, toString g) ::
         (f.mode_section { d with target_speed_percent := some g }).snd,
       [],
       set_target_speed w d.sku d.id g⟩ := by
    unfold Fan.notify_state
    rw [hlook]
    rfl
  refine ⟨?_, ?_, ?_, ?_, ?_, ?_⟩
  · rw [hr1]
    exact List.mem_cons_of_mem _ (List.mem_cons_self _ _)
  · rw [hr1]
  · rw [hr1]
    exact ⟨{ d with target_speed_percent := some g }, hlook, rfl⟩
  · rw [hr1]
    simp only
    rw [hr2]
    exact List.mem_cons_of_mem _ (List.mem_cons_self _ _)
  · rw [hr1]
    simp only
    rw [hr2]
  · rw [hr1]
    simp only
    rw [hr2]

/-- Sample device for the C1 witness: advertised percent range 20..80, no
cached target speed yet. -/
def c1dev : ServiceDevice :=
  { id := "fan1"
    sku := "H7100"
    device_state := some ⟨true⟩
    target_speed_percent := none
    fan_work_mode := some 1
    work_mode_capability := some [⟨"Auto", JVal.int 1, 0⟩]
    state_capabilities := []
    http_device_info := some ⟨[⟨"fan", some (.integer ⟨20, 80⟩ (some "unit.percent"))⟩]⟩
    pollable_via_iot := false
    iot_api_supported := false }

/-- Witness for C1: on a device advertising range 20..80 with no cached
speed, the guess 20 is published, latched, and republished from the cache on
the second call with no further mutation. -/
theorem fan_notify_state_latches_guessed_speed_witness :
    ((Fan.new c1dev false).percentage_state_topic, toString 20) ∈
      ((Fan.new c1dev false).notify_state [c1dev]).pubs ∧
    ((Fan.new c1dev false).notify_state [c1dev]).sets = [(c1dev.sku, c1dev.id, 20)] ∧
    (∃ d2, device_by_id ((Fan.new c1dev false).notify_state [c1dev]).world
        (Fan.new c1dev false).device_id = some d2 ∧ d2.target_speed_percent = some 20) ∧
    ((Fan.new c1dev false).percentage_state_topic, toString 20) ∈
      ((Fan.new c1dev false).notify_state
        (((Fan.new c1dev false).notify_state [c1dev]).world)).pubs ∧
    ((Fan.new c1dev false).notify_state
        (((Fan.new c1dev false).notify_state [c1dev]).world)).sets = [] ∧
    ((Fan.new c1dev false).notify_state
        (((Fan.new c1dev false).notify_state [c1dev]).world)).world =
      ((Fan.new c1dev false).notify_state [c1dev]).world :=
  fan_notify_state_latches_guessed_speed c1dev false (Fan.new c1dev false) [c1dev] c1dev 20
    rfl rfl rfl rfl

/-- With no observed native work mode but a resolvable Mode Table, the mode
section succeeds and publishes exactly what the raw-blob pointer chain
decodes (nothing when any step of the chain fails). -/
theorem mode_section_none_char (f : Fan) (d : ServiceDevice) (ms : List WorkMode)
    (hnat : d.fan_work_mode = none) (hcap : d.work_mode_capability = some ms) :
    f.mode_section d =
      (.ok,
       match ((get_state_capability_by_instance d "workMode").bind
           (fun cap => cap.state.pointer ["value", "workMode"])).bind
           (fun v => ParsedWorkMode.mode_for_value ⟨ms⟩ v) with
       | some mode => [(f.preset_mode_state_topic, mode.name)]
       | none => []) := by
  simp only [Fan.mode_section, ParsedWorkMode.with_device, hnat, hcap]
  cases get_state_capability_by_instance d "workMode" with
  | none => rfl
  | some cap =>
    dsimp only [Option.bind]
    cases cap.state.pointer ["value", "workMode"] with
    | none => rfl
    | some v =>
      dsimp only [Option.bind]
      cases ParsedWorkMode.mode_for_value ⟨ms⟩ v with
      | none => rfl
      | some mode => rfl

/-- C2 (amended): with no observed fan work-mode native value, when the
device still exposes a work-mode capability, `notify_state` succeeds,
publishing the mode decoded from the raw capability-state blob via the
pointer `/value/workMode` when the chain resolves and silently skipping the
mode publication when it does not; but when the device has no work-mode
capability at all, `notify_state` propagates the `NoWorkModeCapability`
error instead of succeeding. -/
theorem fan_notify_state_mode_decode_amended (f : Fan) (w : World) (d : ServiceDevice)
    (hd : device_by_id w f.device_id = some d)
    (hnat : d.fan_work_mode = none) :
    (d.work_mode_capability = none →
       (f.notify_state w).outcome = .error "NoWorkModeCapability") ∧
    (∀ ms, d.work_mode_capability = some ms →
       (f.notify_state w).outcome = .ok ∧
       (∀ cap mode_num mode,
          get_state_capability_by_instance d "workMode" = some cap →
          cap.state.pointer ["value", "workMode"] = some mode_num →
          ParsedWorkMode.mode_for_value ⟨ms⟩ mode_num = some mode →
          (f.notify_state w).pubs =
            [(f.state_topic, Fan.on_off_payload d), (f.speed_section d w).fst,
             (f.preset_mode_state_topic, mode.name)]) ∧
       (((get_state_capability_by_instance d "workMode").bind
            (fun cap => cap.state.pointer ["value", "workMode"])).bind
          (fun v => ParsedWorkMode.mode_for_value ⟨ms⟩ v) = none →
          (f.notify_state w).pubs =
            [(f.state_topic, Fan.on_off_payload d), (f.speed_section d w).fst])) := by
  have houtcome : (f.notify_state w).outcome = (f.mode_section d).fst := by
    unfold Fan.notify_state
    rw [hd]
  have hpubs : (f.notify_state w).pubs =
      (f.state_topic, Fan.on_off_payload d) :: (f.speed_section d w).fst ::
        (f.mode_section d).snd := by
    unfold Fan.notify_state
    rw [hd]
  refine ⟨?_, ?_⟩
  · intro hcap
    rw [houtcome]
    simp only [Fan.mode_section, ParsedWorkMode.with_device, hnat, hcap]
  · intro ms hcap
    have hms := mode_section_none_char f d ms hnat hcap
    refine ⟨?_, ?_, ?_⟩
    · rw [houtcome, hms]
    · intro cap mode_num mode hsc hp hm
      have hchain : ((get_state_capability_by_instance d "workMode").bind
          (fun cap => cap.state.pointer ["value", "workMode"])).bind
          (fun v => ParsedWorkMode.mode_for_value ⟨ms⟩ v) = some mode := by
        rw [hsc]
        dsimp only [Option.bind]
        rw [hp]
        dsimp only [Option.bind]
        rw [hm]
      rw [hpubs, hms]
      dsimp only
      rw [hchain]
    · intro hchain
      rw [hpubs, hms]
      dsimp only
      rw [hchain]

/-- Sample device for the C2 counterexample: no observed work-mode value and
no work-mode capability at all. -/
def c2dev : ServiceDevice :=
  { id := "fan2"
    sku := "H7101"
    device_state := some ⟨true⟩
    target_speed_percent := some 25
    fan_work_mode := none
    work_mode_capability := none
    state_capabilities := []
    http_device_info := none
    pollable_via_iot := false
    iot_api_supported := false }

/-- Counterexample to C2 as stated: on a device with no observed work-mode
value and no work-mode capability, `notify_state` does not return
successfully; it returns the `NoWorkModeCapability` error. -/
theorem fan_notify_state_mode_missing_capability_errors :
    ((Fan.new c2dev false).notify_state [c2dev]).outcome = .error "NoWorkModeCapability" ∧
    ((Fan.new c2dev false).notify_state [c2dev]).outcome ≠ .ok := by
  refine ⟨rfl, ?_⟩
  decide

/-- Witness for the amended C2: a device whose work-mode capability resolves
and whose raw blob decodes mode 1 ("Low") gets that mode name published with
a successful outcome. -/
def c2devB : ServiceDevice :=
  { id := "fan2b"
    sku := "H7101"
    device_state := some ⟨true⟩
    target_speed_percent := some 25
    fan_work_mode := none
    work_mode_capability := some [⟨"Low", JVal.int 1, 0⟩, ⟨"Auto", JVal.int 2, 0⟩]
    state_capabilities := [⟨"workMode", JVal.obj [("value", JVal.obj [("workMode", JVal.int 1)])]⟩]
    http_device_info := none
    pollable_via_iot := false
    iot_api_supported := false }

/-- Witness for C2 (amended), instantiated on `c2devB`: the capability is
present, so the outcome is successful and the blob-decoded mode is
published. -/
theorem fan_notify_state_mode_decode_amended_witness :
    (c2devB.work_mode_capability = none →
       ((Fan.new c2devB false).notify_state [c2devB]).outcome = .error "NoWorkModeCapability") ∧
    (∀ ms, c2devB.work_mode_capability = some ms →
       ((Fan.new c2devB false).notify_state [c2devB]).outcome = .ok ∧
       (∀ cap mode_num mode,
          get_state_capability_by_instance c2devB "workMode" = some cap →
          cap.state.pointer ["value", "workMode"] = some mode_num →
          ParsedWorkMode.mode_for_value ⟨ms⟩ mode_num = some mode →
          ((Fan.new c2devB false).notify_state [c2devB]).pubs =
            [((Fan.new c2devB false).state_topic, Fan.on_off_payload c2devB),
             ((Fan.new c2devB false).speed_section c2devB [c2devB]).fst,
             ((Fan.new c2devB false).preset_mode_state_topic, mode.name)]) ∧
       (((get_state_capability_by_instance c2devB "workMode").bind
            (fun cap => cap.state.pointer ["value", "workMode"])).bind
          (fun v => ParsedWorkMode.mode_for_value ⟨ms⟩ v) = none →
          ((Fan.new c2devB false).notify_state [c2devB]).pubs =
            [((Fan.new c2devB false).state_topic, Fan.on_off_payload c2devB),
             ((Fan.new c2devB false).speed_section c2devB [c2devB]).fst])) :=
  fan_notify_state_mode_decode_amended (Fan.new c2devB false) [c2devB] c2devB rfl rfl

/-- C7: `notify_state` publishes the on/off state first: `"OFF"` when the
Device Runtime State is absent (fail-safe default), `"ON"` exactly when the
cached on flag is true, and never any payload other than `"ON"`/`"OFF"`. -/
theorem fan_notify_state_on_off_failsafe (f : Fan) (w : World) (d : ServiceDevice)
    (hd : device_by_id w f.device_id = some d) :
    (d.device_state = none →
       (f.notify_state w).pubs.head? = some (f.state_topic, "OFF")) ∧
    (∀ ds, d.device_state = some ds →
       (f.notify_state w).pubs.head? =
         some (f.state_topic, if ds.«on» then "ON" else "OFF")) ∧
    (∀ pr, (f.notify_state w).pubs.head? = some pr →
       pr.snd = "ON" ∨ pr.snd = "OFF") := by
  have hpubs : (f.notify_state w).pubs =
      (f.state_topic, Fan.on_off_payload d) :: (f.speed_section d w).fst ::
        (f.mode_section d).snd := by
    unfold Fan.notify_state
    rw [hd]
  refine ⟨?_, ?_, ?_⟩
  · intro h
    rw [hpubs, List.head?_cons]
    unfold Fan.on_off_payload
    rw [h]
  · intro ds h
    rw [hpubs, List.head?_cons]
    unfold Fan.on_off_payload
    rw [h]
  · intro pr hpr
    rw [hpubs, List.head?_cons] at hpr
    injection hpr with hpr
    subst hpr
    unfold Fan.on_off_payload
    cases hds : d.device_state with
    | none => right; rfl
    | some ds =>
      dsimp only
      cases hon : ds.«on» with
      | false => right; rfl
      | true => left; rfl

/-- Sample device for the C7 witness: present in the registry but with no
cached device state. -/
def c7dev : ServiceDevice :=
  { id := "fan7"
    sku := "H7102"
    device_state := none
    target_speed_percent := some 10
    fan_work_mode := some 1
    work_mode_capability := some [⟨"Auto", JVal.int 1, 0⟩]
    state_capabilities := []
    http_device_info := none
    pollable_via_iot := false
    iot_api_supported := false }

/-- Witness for C7 on `c7dev` (absent device state): the first publication is
`"OFF"` on the state topic. -/
theorem fan_notify_state_on_off_failsafe_witness :
    (c7dev.device_state = none →
       ((Fan.new c7dev false).notify_state [c7dev]).pubs.head? =
         some ((Fan.new c7dev false).state_topic, "OFF")) ∧
    (∀ ds, c7dev.device_state = some ds →
       ((Fan.new c7dev false).notify_state [c7dev]).pubs.head? =
         some ((Fan.new c7dev false).state_topic, if ds.«on» then "ON" else "OFF")) ∧
    (∀ pr, ((Fan.new c7dev false).notify_state [c7dev]).pubs.head? = some pr →
       pr.snd = "ON" ∨ pr.snd = "OFF") :=
  fan_notify_state_on_off_failsafe (Fan.new c7dev false) [c7dev] c7dev rfl

/-- Fan entity whose stored device id is absent from the registry, for C9. -/
def c9fan : Fan :=
  { device_id := "ghost"
    command_topic := "gv2mqtt/switch/ghost/command/powerSwitch"
    state_topic := "gv2mqtt/fan/ghost/state"
    percentage_command_topic := "gv2mqtt/fan/ghost/set-speed"
    percentage_state_topic := "gv2mqtt/fan/ghost/notify-speed"
    preset_mode_command_topic := "gv2mqtt/fan/ghost/set-mode"
    preset_mode_state_topic := "gv2mqtt/fan/ghost/notify-mode"
    speed_range_min := none
    speed_range_max := none
    preset_modes := []
    optimistic := true }

/-- C9: when the entity's stored device id is not in the registry,
`notify_state` panics through `expect("device to exist")` instead of
returning an error result. -/
theorem fan_notify_state_panics_on_missing_device :
    (c9fan.notify_state []).outcome = .panicked "device to exist" ∧
    (∀ e, (c9fan.notify_state []).outcome ≠ .error e) := by
  refine ⟨rfl, ?_⟩
  intro e h
  exact Outcome.noConfusion h

/-! Characterizations of the command handlers. -/

/-- After device resolution, `mqtt_fan_set_work_mode` is the lookup/convert/
dispatch pipeline over the resolved Mode Table. -/
theorem mqtt_fan_set_work_mode_char (mode id : String) (env : Env)
    (d : ServiceDevice) (wm : ParsedWorkMode)
    (hres : resolve_device_for_control env id = .ok d)
    (hwm : ParsedWorkMode.with_device d = .ok wm) :
    mqtt_fan_set_work_mode mode id env =
      (match wm.mode_by_name mode with
       | none => ⟨.error ("mode " ++ mode ++ " not found"), [], []⟩
       | some work_mode =>
         match work_mode.value.as_i64 with
         | none => ⟨.error "expected workMode to be a number", [], []⟩
         | some mode_num =>
           if env.fan_set_parameter_ok then
             ⟨.ok, [.fan_set_parameter mode_num work_mode.default_value], []⟩
           else
             ⟨.error "ControlError", [.fan_set_parameter mode_num work_mode.default_value], []⟩) := by
  simp only [mqtt_fan_set_work_mode, hres, hwm]

/-- When the secondary percent-control capability is available,
`mqtt_fan_set_speed` controls it directly and latches the cache only on
dispatch success. -/
theorem mqtt_fan_set_speed_secondary_char (percent : Int) (id : String) (env : Env)
    (d : ServiceDevice) (cap : HttpCapability)
    (hres : resolve_device_for_control env id = .ok d)
    (hcap : secondary_percent_cap (d.pollable_via_iot && env.iot_client_available) d = some cap) :
    mqtt_fan_set_speed percent id env =
      if env.device_control_ok then
        ⟨.ok, [.device_control cap.inst percent], [(d.sku, d.id, (percent % 256).toNat)]⟩
      else
        ⟨.error "ControlError", [.device_control cap.inst percent], []⟩ := by
  simp only [mqtt_fan_set_speed, hres, hcap]

/-- When the secondary percent-control capability is unavailable,
`mqtt_fan_set_speed` is the `"Auto"`-mode fallback pipeline. -/
theorem mqtt_fan_set_speed_fallback_char (percent : Int) (id : String) (env : Env)
    (d : ServiceDevice) (wm : ParsedWorkMode)
    (hres : resolve_device_for_control env id = .ok d)
    (hsec : secondary_percent_cap (d.pollable_via_iot && env.iot_client_available) d = none)
    (hwm : ParsedWorkMode.with_device d = .ok wm) :
    mqtt_fan_set_speed percent id env =
      (match wm.mode_by_name "Auto" with
       | none => ⟨.error "mode Auto not found", [], []⟩
       | some work_mode =>
         match work_mode.value.as_i64 with
         | none => ⟨.error "expected workMode to be a number", [], []⟩
         | some mode_num =>
           if env.fan_set_parameter_ok then
             ⟨.ok, [.fan_set_parameter mode_num
                (Int.ofNat ((TargetSpeed.from_percent (percent % 256).toNat).into_inner))], []⟩
           else
             ⟨.error "ControlError", [.fan_set_parameter mode_num
                (Int.ofNat ((TargetSpeed.from_percent (percent % 256).toNat).into_inner))], []⟩) := by
  simp only [mqtt_fan_set_speed, hres, hsec, hwm]

/-- C6: the set-mode payload is looked up in the Mode Table by exact,
case-sensitive string match; on no match the command fails with the
mode-not-found error before any dispatch; on a match the mode's numeric
native value is dispatched together with its default sub-parameter value. -/
theorem fan_set_work_mode_exact_lookup (mode id : String) (env : Env)
    (d : ServiceDevice) (wm : ParsedWorkMode)
    (hres : resolve_device_for_control env id = .ok d)
    (hwm : ParsedWorkMode.with_device d = .ok wm) :
    (wm.mode_by_name mode = none →
       (mqtt_fan_set_work_mode mode id env).outcome =
         .error ("mode " ++ mode ++ " not found") ∧
       (mqtt_fan_set_work_mode mode id env).dispatches = []) ∧
    (∀ m v, wm.mode_by_name mode = some m → m.value.as_i64 = some v →
       (mqtt_fan_set_work_mode mode id env).dispatches =
         [.fan_set_parameter v m.default_value]) ∧
    (∀ m, wm.mode_by_name mode = some m → m.name = mode) := by
  have hchar := mqtt_fan_set_work_mode_char mode id env d wm hres hwm
  refine ⟨?_, ?_, ?_⟩
  · intro h
    rw [hchar, h]
    exact ⟨rfl, rfl⟩
  · intro m v hm hv
    rw [hchar, hm]
    dsimp only
    rw [hv]
    dsimp only
    cases env.fan_set_parameter_ok <;> rfl
  · intro m hm
    have hm2 : wm.modes.find? (fun x => x.name == mode) = some m := hm
    have hm3 := @List.find?_some WorkMode (fun x => x.name == mode) m wm.modes hm2
    exact eq_of_beq hm3

/-- C3: when the secondary percent path is unusable (IoT preferred, or no
HTTP `"fan"` capability), set-speed falls back to the `"Auto"` work mode: if
the Mode Table has no `"Auto"` entry the command fails with the
mode-not-found error before any dispatch, and otherwise it dispatches the
mode's native value with the percent converted to a native speed code. -/
theorem fan_set_speed_auto_fallback (percent : Int) (id : String) (env : Env)
    (d : ServiceDevice) (wm : ParsedWorkMode)
    (hres : resolve_device_for_control env id = .ok d)
    (hsec : (d.pollable_via_iot && env.iot_client_available) = true ∨
        d.http_device_info.bind (fun info => capability_by_instance info "fan") = none)
    (hwm : ParsedWorkMode.with_device d = .ok wm) :
    (wm.mode_by_name "Auto" = none →
       (mqtt_fan_set_speed percent id env).outcome = .error "mode Auto not found" ∧
       (mqtt_fan_set_speed percent id env).dispatches = []) ∧
    (∀ m v, wm.mode_by_name "Auto" = some m → m.value.as_i64 = some v →
       (mqtt_fan_set_speed percent id env).dispatches =
         [.fan_set_parameter v
            (Int.ofNat ((TargetSpeed.from_percent (percent % 256).toNat).into_inner))]) := by
  have hsec2 : secondary_percent_cap (d.pollable_via_iot && env.iot_client_available) d =
      none := by
    rcases hsec with h | h
    · simp [secondary_percent_cap, h]
    · cases d.pollable_via_iot && env.iot_client_available <;>
        simp [secondary_percent_cap, h]
  have hchar := mqtt_fan_set_speed_fallback_char percent id env d wm hres hsec2 hwm
  refine ⟨?_, ?_⟩
  · intro h
    rw [hchar, h]
    exact ⟨rfl, rfl⟩
  · intro m v hm hv
    rw [hchar, hm]
    dsimp only
    rw [hv]
    dsimp only
    cases env.fan_set_parameter_ok <;> rfl

/-- C4: the secondary direct-percent path is taken only when the primary is
unusable, primary usability being the per-call conjunction of the device
metadata flag and current IoT client availability; on a usable secondary
capability the handler dispatches exactly one direct control and, on
success, latches the optimistic cache and returns with no further
dispatch. -/
theorem fan_set_speed_secondary_transport_policy (percent : Int) (id : String) (env : Env)
    (d : ServiceDevice)
    (hres : resolve_device_for_control env id = .ok d) :
    ((d.pollable_via_iot && env.iot_client_available) = true →
       ∀ c v, Dispatch.device_control c v ∉ (mqtt_fan_set_speed percent id env).dispatches) ∧
    (∀ cap, (d.pollable_via_iot && env.iot_client_available) = false →
       secondary_percent_cap false d = some cap →
       (mqtt_fan_set_speed percent id env).dispatches.head? =
         some (.device_control cap.inst percent) ∧
       (env.device_control_ok = true →
          (mqtt_fan_set_speed percent id env).outcome = .ok ∧
          (mqtt_fan_set_speed percent id env).sets =
            [(d.sku, d.id, (percent % 256).toNat)] ∧
          (mqtt_fan_set_speed percent id env).dispatches =
            [.device_control cap.inst percent])) := by
  refine ⟨?_, ?_⟩
  · intro h c v
    have hsec2 : secondary_percent_cap (d.pollable_via_iot && env.iot_client_available) d =
        none := by simp [secondary_percent_cap, h]
    cases hw : ParsedWorkMode.with_device d with
    | error e =>
      have hrun : mqtt_fan_set_speed percent id env = ⟨.error e, [], []⟩ := by
        simp only [mqtt_fan_set_speed, hres, hsec2, hw]
      rw [hrun]
      simp
    | ok wm =>
      have hchar := mqtt_fan_set_speed_fallback_char percent id env d wm hres hsec2 hw
      rw [hchar]
      cases wm.mode_by_name "Auto" with
      | none => simp
      | some m =>
        dsimp only
        cases m.value.as_i64 with
        | none => simp
        | some v2 =>
          dsimp only
          cases env.fan_set_parameter_ok <;> simp
  · intro cap hio hcap2
    have hsec2 : secondary_percent_cap (d.pollable_via_iot && env.iot_client_available) d =
        some cap := by
      rw [hio]
      exact hcap2
    have hchar := mqtt_fan_set_speed_secondary_char percent id env d cap hres hsec2
    refine ⟨?_, ?_⟩
    · rw [hchar]
      cases env.device_control_ok <;> rfl
    · intro hok
      rw [hchar, hok]
      exact ⟨rfl, rfl, rfl⟩

/-- C5: on the secondary percent path the optimistic cache write happens only
after a successful transport dispatch: a failed dispatch propagates the
transport error and leaves the cached target speed untouched, while a
successful one records the optimistic value. -/
theorem fan_set_speed_cache_after_dispatch (percent : Int) (id : String) (env : Env)
    (d : ServiceDevice) (cap : HttpCapability)
    (hres : resolve_device_for_control env id = .ok d)
    (hcap : secondary_percent_cap (d.pollable_via_iot && env.iot_client_available) d =
      some cap) :
    (env.device_control_ok = false →
       (mqtt_fan_set_speed percent id env).outcome = .error "ControlError" ∧
       (mqtt_fan_set_speed percent id env).sets = []) ∧
    (env.device_control_ok = true →
       (mqtt_fan_set_speed percent id env).outcome = .ok ∧
       (mqtt_fan_set_speed percent id env).sets =
         [(d.sku, d.id, (percent % 256).toNat)]) := by
  have hchar := mqtt_fan_set_speed_secondary_char percent id env d cap hres hcap
  refine ⟨?_, ?_⟩
  · intro hok
    rw [hchar, hok]
    exact ⟨rfl, rfl⟩
  · intro hok
    rw [hchar, hok]
    exact ⟨rfl, rfl⟩

/-- C10: set-speed never validates the payload against 0..100: any i64
percent proceeds, and on the secondary path the cached optimistic value is
the payload truncated to u8, i.e. taken modulo 256. -/
theorem fan_set_speed_no_percent_validation (percent : Int) (id : String) (env : Env)
    (d : ServiceDevice) (cap : HttpCapability)
    (hres : resolve_device_for_control env id = .ok d)
    (hcap : secondary_percent_cap (d.pollable_via_iot && env.iot_client_available) d =
      some cap)
    (hok : env.device_control_ok = true) :
    (mqtt_fan_set_speed percent id env).outcome = .ok ∧
    (mqtt_fan_set_speed percent id env).sets = [(d.sku, d.id, (percent % 256).toNat)] ∧
    (mqtt_fan_set_speed percent id env).dispatches = [.device_control cap.inst percent] := by
  have hchar := mqtt_fan_set_speed_secondary_char percent id env d cap hres hcap
  rw [hchar, hok]
  exact ⟨rfl, rfl, rfl⟩

/-- HTTP percent-control capability used by the handler witnesses. -/
def httpFanCap : HttpCapability := ⟨"fan", some (.integer ⟨1, 8⟩ (some "unit.percent"))⟩

/-- Device for the C6 witness: its only mode is lowercase `"sleep"`. -/
def c6dev : ServiceDevice :=
  { id := "fan6"
    sku := "H7106"
    device_state := some ⟨true⟩
    target_speed_percent := some 10
    fan_work_mode := some 1
    work_mode_capability := some [⟨"sleep", JVal.int 1, 5⟩]
    state_capabilities := []
    http_device_info := none
    pollable_via_iot := false
    iot_api_supported := false }

/-- Environment for the C6 witness. -/
def env6 : Env := ⟨[c6dev], false, true, true⟩

/-- Witness for C6 on `c6dev`: `"Sleep"` differs from `"sleep"` only in case,
so the lookup misses and the command fails before any dispatch. -/
theorem fan_set_work_mode_exact_lookup_witness :
    ((⟨[⟨"sleep", JVal.int 1, 5⟩]⟩ : ParsedWorkMode).mode_by_name "Sleep" = none →
       (mqtt_fan_set_work_mode "Sleep" "fan6" env6).outcome =
         .error ("mode " ++ "Sleep" ++ " not found") ∧
       (mqtt_fan_set_work_mode "Sleep" "fan6" env6).dispatches = []) ∧
    (∀ m v, (⟨[⟨"sleep", JVal.int 1, 5⟩]⟩ : ParsedWorkMode).mode_by_name "Sleep" = some m →
       m.value.as_i64 = some v →
       (mqtt_fan_set_work_mode "Sleep" "fan6" env6).dispatches =
         [.fan_set_parameter v m.default_value]) ∧
    (∀ m, (⟨[⟨"sleep", JVal.int 1, 5⟩]⟩ : ParsedWorkMode).mode_by_name "Sleep" = some m →
       m.name = "Sleep") :=
  fan_set_work_mode_exact_lookup "Sleep" "fan6" env6 c6dev ⟨[⟨"sleep", JVal.int 1, 5⟩]⟩ rfl rfl

/-- Device for the C3 witness: no HTTP descriptor at all, only the enumerated
`"Auto"` mode with native value 2. -/
def c3dev : ServiceDevice :=
  { id := "fan3"
    sku := "H7103"
    device_state := some ⟨true⟩
    target_speed_percent := some 10
    fan_work_mode := some 2
    work_mode_capability := some [⟨"Auto", JVal.int 2, 1⟩]
    state_capabilities := []
    http_device_info := none
    pollable_via_iot := false
    iot_api_supported := false }

/-- Environment for the C3 witness. -/
def env3 : Env := ⟨[c3dev], false, true, true⟩

/-- Witness for C3 on `c3dev` at speed 70: the handler dispatches mode 2 with
the converted native speed sub-value instead of a direct percent write. -/
theorem fan_set_speed_auto_fallback_witness :
    ((⟨[⟨"Auto", JVal.int 2, 1⟩]⟩ : ParsedWorkMode).mode_by_name "Auto" = none →
       (mqtt_fan_set_speed 70 "fan3" env3).outcome = .error "mode Auto not found" ∧
       (mqtt_fan_set_speed 70 "fan3" env3).dispatches = []) ∧
    (∀ m v, (⟨[⟨"Auto", JVal.int 2, 1⟩]⟩ : ParsedWorkMode).mode_by_name "Auto" = some m →
       m.value.as_i64 = some v →
       (mqtt_fan_set_speed 70 "fan3" env3).dispatches =
         [.fan_set_parameter v
            (Int.ofNat ((TargetSpeed.from_percent ((70 : Int) % 256).toNat).into_inner))]) :=
  fan_set_speed_auto_fallback 70 "fan3" env3 c3dev ⟨[⟨"Auto", JVal.int 2, 1⟩]⟩ rfl
    (Or.inr rfl) rfl

/-- Device for the C4 witness: HTTP `"fan"` capability present, device not
marked IoT-pollable. -/
def c4dev : ServiceDevice :=
  { id := "fan4"
    sku := "H7104"
    device_state := some ⟨true⟩
    target_speed_percent := some 10
    fan_work_mode := some 1
    work_mode_capability := some [⟨"Auto", JVal.int 2, 1⟩]
    state_capabilities := []
    http_device_info := some ⟨[httpFanCap]⟩
    pollable_via_iot := false
    iot_api_supported := false }

/-- Environment for the C4 witness: the IoT client is available, but the
device metadata does not mark IoT support, so the conjunction fails. -/
def env4 : Env := ⟨[c4dev], true, true, true⟩

/-- Witness for C4 on `c4dev` at speed 70: primary is unusable, so exactly
one direct secondary dispatch happens, the cache is latched and nothing else
is dispatched. -/
theorem fan_set_speed_secondary_transport_policy_witness :
    ((c4dev.pollable_via_iot && env4.iot_client_available) = true →
       ∀ c v, Dispatch.device_control c v ∉ (mqtt_fan_set_speed 70 "fan4" env4).dispatches) ∧
    (∀ cap, (c4dev.pollable_via_iot && env4.iot_client_available) = false →
       secondary_percent_cap false c4dev = some cap →
       (mqtt_fan_set_speed 70 "fan4" env4).dispatches.head? =
         some (.device_control cap.inst 70) ∧
       (env4.device_control_ok = true →
          (mqtt_fan_set_speed 70 "fan4" env4).outcome = .ok ∧
          (mqtt_fan_set_speed 70 "fan4" env4).sets =
            [(c4dev.sku, c4dev.id, ((70 : Int) % 256).toNat)] ∧
          (mqtt_fan_set_speed 70 "fan4" env4).dispatches =
            [.device_control cap.inst 70])) :=
  fan_set_speed_secondary_transport_policy 70 "fan4" env4 c4dev rfl

/-- Device for the C5 witness. -/
def c5dev : ServiceDevice :=
  { id := "fan5"
    sku := "H7105"
    device_state := some ⟨true⟩
    target_speed_percent := some 10
    fan_work_mode := some 1
    work_mode_capability := some [⟨"Auto", JVal.int 2, 1⟩]
    state_capabilities := []
    http_device_info := some ⟨[httpFanCap]⟩
    pollable_via_iot := false
    iot_api_supported := false }

/-- Environment for the C5 witness: the secondary transport dispatch fails. -/
def env5 : Env := ⟨[c5dev], false, false, true⟩

/-- Witness for C5 on `c5dev` with a failing secondary dispatch: the error
propagates and no cache write happens. -/
theorem fan_set_speed_cache_after_dispatch_witness :
    (env5.device_control_ok = false →
       (mqtt_fan_set_speed 50 "fan5" env5).outcome = .error "ControlError" ∧
       (mqtt_fan_set_speed 50 "fan5" env5).sets = []) ∧
    (env5.device_control_ok = true →
       (mqtt_fan_set_speed 50 "fan5" env5).outcome = .ok ∧
       (mqtt_fan_set_speed 50 "fan5" env5).sets =
         [(c5dev.sku, c5dev.id, ((50 : Int) % 256).toNat)]) :=
  fan_set_speed_cache_after_dispatch 50 "fan5" env5 c5dev httpFanCap rfl rfl

/-- Device for the C10 witness. -/
def c10dev : ServiceDevice :=
  { id := "fan10"
    sku := "H7110"
    device_state := some ⟨true⟩
    target_speed_percent := some 10
    fan_work_mode := some 1
    work_mode_capability := some [⟨"Auto", JVal.int 2, 1⟩]
    state_capabilities := []
    http_device_info := some ⟨[httpFanCap]⟩
    pollable_via_iot := false
    iot_api_supported := false }

/-- Environment for the C10 witness. -/
def env10 : Env := ⟨[c10dev], false, true, true⟩

/-- Witness for C10 with the out-of-range payload 300: the command succeeds
and caches 300 mod 256 = 44 as the target speed. -/
theorem fan_set_speed_no_percent_validation_witness :
    (mqtt_fan_set_speed 300 "fan10" env10).outcome = .ok ∧
    (mqtt_fan_set_speed 300 "fan10" env10).sets = [(c10dev.sku, c10dev.id, 44)] ∧
    (mqtt_fan_set_speed 300 "fan10" env10).dispatches = [.device_control "fan" 300] :=
  fan_set_speed_no_percent_validation 300 "fan10" env10 c10dev httpFanCap rfl rfl rfl

/-- Counterexample to C8 as stated: for the advertised range [1, 8] (the
spec's own scenario range) and p = 50, the round trip returns 57, which is
not within one unit of 50.  Any integer converter hitting both endpoints of
a range narrower than 100 must collapse distinct percents this way. -/
theorem value_converter_round_trip_counterexample :
    toPercent (fromPercent 50 1 8) 1 8 = 57 ∧
    ¬(toPercent (fromPercent 50 1 8) 1 8 ≤ 50 + 1 ∧
      50 ≤ toPercent (fromPercent 50 1 8) 1 8 + 1) := by
  decide

/-- C8 (amended): for every percent 0..100 and range with min ≤ max,
`fromPercent` maps 0 to the minimum and 100 to the maximum and is monotonic;
the round trip `toPercent(fromPercent(p))` recovers `p` within one unit of
rounding error provided the range spans at least 100 units (for narrower
ranges the round trip is only accurate up to the quantization step). -/
theorem value_converter_round_trip_amended (p minV maxV : Nat)
    (hp : p ≤ 100) (hmm : minV ≤ maxV) :
    fromPercent 0 minV maxV = minV ∧
    fromPercent 100 minV maxV = maxV ∧
    (∀ a b, a ≤ b → fromPercent a minV maxV ≤ fromPercent b minV maxV) ∧
    (100 ≤ maxV - minV →
       toPercent (fromPercent p minV maxV) minV maxV ≤ p + 1 ∧
       p ≤ toPercent (fromPercent p minV maxV) minV maxV + 1) := by
  refine ⟨?_, ?_, ?_, ?_⟩
  · show minV + (0 * (maxV - minV) + 50) / 100 = minV
    norm_num
  · show minV + (100 * (maxV - minV) + 50) / 100 = maxV
    have h1 : (100 * (maxV - minV) + 50) / 100 = maxV - minV := by
      rw [Nat.add_comm, Nat.add_mul_div_left _ _ (by norm_num : (0 : Nat) < 100)]
      norm_num
    rw [h1]
    omega
  · intro a b hab
    unfold fromPercent
    exact Nat.add_le_add_left
      (Nat.div_le_div_right (Nat.add_le_add_right (Nat.mul_le_mul_right _ hab) 50)) minV
  · intro hW
    have h2W : 0 < 2 * (maxV - minV) := by omega
    have hq : fromPercent p minV maxV - minV = (p * (maxV - minV) + 50) / 100 := by
      unfold fromPercent
      exact Nat.add_sub_cancel_left _ _
    have hto : toPercent (fromPercent p minV maxV) minV maxV =
        ((p * (maxV - minV) + 50) / 100 * 200 + (maxV - minV)) / (2 * (maxV - minV)) := by
      unfold toPercent
      rw [hq]
    rw [hto]
    have hgen : ∃ t, p * (maxV - minV) = t := ⟨_, rfl⟩
    obtain ⟨t, ht⟩ := hgen
    rw [ht]
    constructor
    · have hlt : (t + 50) / 100 * 200 + (maxV - minV) < (p + 2) * (2 * (maxV - minV)) := by
        have hexp : (p + 2) * (2 * (maxV - minV)) = 2 * t + 4 * (maxV - minV) := by
          rw [← ht]
          ring
        rw [hexp]
        omega
      have hfin := (Nat.div_lt_iff_lt_mul h2W).mpr hlt
      omega
    · have hle : p * (2 * (maxV - minV)) ≤ (t + 50) / 100 * 200 + (maxV - minV) := by
        have hexp : p * (2 * (maxV - minV)) = 2 * t := by
          rw [← ht]
          ring
        rw [hexp]
        omega
      have hfin := (Nat.le_div_iff_mul_le h2W).mpr hle
      omega

/-- Witness for the amended C8 at p = 30 on the range [0, 200] (span at
least 100, so the round trip is within one unit). -/
theorem value_converter_round_trip_amended_witness :
    fromPercent 0 0 200 = 0 ∧
    fromPercent 100 0 200 = 200 ∧
    (∀ a b, a ≤ b → fromPercent a 0 200 ≤ fromPercent b 0 200) ∧
    (100 ≤ 200 - 0 →
       toPercent (fromPercent 30 0 200) 0 200 ≤ 30 + 1 ∧
       30 ≤ toPercent (fromPercent 30 0 200) 0 200 + 1) :=
  value_converter_round_trip_amended 30 0 200 (by decide) (by decide)
